import Mathlib

/-!
Shallow embedding of the kissgn control plane: role-based access checks,
owner-bootstrap and role-update transactions, the backfill lease lock,
and the daily analytics builder, translated from the JavaScript sources.
-/

namespace Kissgn

/-! ## Error shape: `{ status, msg }` thrown by helpers.js -/

structure ErrResp where
  status : Nat
  msg : String
deriving DecidableEq, Repr

/-! ## RBAC constants (src/lib/helpers.js) -/

def VALID_ROLES : List String := ["owner", "manager", "shift_manager", "viewer"]

/-- ROLE_RANK lookup; `none` models an absent key in the JS object. -/
def roleRank (r : String) : Option Nat :=
  if r = "owner" then some 4
  else if r = "manager" then some 3
  else if r = "shift_manager" then some 2
  else if r = "viewer" then some 1
  else none

/-- hasRole: `(ROLE_RANK[role] || 0) >= (ROLE_RANK[minRole] || 999)`. -/
def hasRole (role minRole : String) : Bool :=
  (roleRank role).getD 0 ≥ (roleRank minRole).getD 999

/-- The RTDB-forbidden character class `[.#$\x5b\x5d/]`. -/
def forbiddenChar (c : Char) : Bool :=
  c = '.' ∨ c = '#' ∨ c = '$' ∨ c = '[' ∨ c = ']' ∨ c = '/'

def hasForbiddenChar (s : String) : Bool :=
  s.toList.any forbiddenChar

/-! ## JS values read back from the store -/

inductive JVal
  | vbool (b : Bool)
  | vstr (s : String)
  | vnum (n : Int)
  | vnull
deriving DecidableEq, Repr

/-- Outcome of one store read raced against its timeout: either the read
errored / timed out (the catch branch), or it produced a JS value. -/
inductive ReadResult
  | err
  | ok (v : JVal)
deriving DecidableEq, Repr

/-- requireTenantAccess (src/lib/helpers.js): the two store reads are
parameters; everything else follows the source line by line. -/
def requireTenantAccess (uid tenantId minRole : String)
    (memberRead roleRead : ReadResult) : Except ErrResp String :=
  if uid = "" ∨ uid.length > 128 then .error ⟨400, "invalid uid"⟩
  else if tenantId = "" ∨ tenantId.length > 128 then .error ⟨400, "invalid tenantId"⟩
  else if minRole ∉ VALID_ROLES then .error ⟨400, "invalid minRole"⟩
  else if hasForbiddenChar uid ∨ hasForbiddenChar tenantId then
    .error ⟨400, "invalid characters in id"⟩
  else
    match memberRead with
    | .err => .error ⟨503, "authorization check unavailable"⟩
    | .ok memberVal =>
      if memberVal ≠ .vbool true then .error ⟨403, "not a tenant member"⟩
      else
        match roleRead with
        | .err => .error ⟨503, "authorization check unavailable"⟩
        | .ok roleVal =>
          match roleVal with
          | .vstr role =>
            if role ∉ VALID_ROLES then .error ⟨403, "no valid role assigned"⟩
            else if ¬ hasRole role minRole then .error ⟨403, "insufficient role"⟩
            else .ok role
          | _ => .error ⟨403, "no valid role assigned"⟩

/-! ## Roles map and the two mutation transactions -/

/-- The `tenants/{id}/roles` node: a JS object mapping uid to a role string,
modelled as an association list with pairwise-distinct keys. -/
abbrev RolesMap := List (String × String)

def rolesKeys (m : RolesMap) : List String := m.map (fun e => e.1)

/-- `Object.entries(roles).filter(([, r]) => r === "owner").map(([uid]) => uid)`. -/
def owners (m : RolesMap) : List String :=
  (m.filter (fun e => e.2 = "owner")).map (fun e => e.1)

/-- `{ ...roles, [uid]: role }` — replace or add one key. -/
def setRole (m : RolesMap) (uid role : String) : RolesMap :=
  (uid, role) :: m.filter (fun e => e.1 ≠ uid)

/-- `const updated = { ...roles }; delete updated[targetUid]`. -/
def delRole (m : RolesMap) (uid : String) : RolesMap :=
  m.filter (fun e => e.1 ≠ uid)

/-- Bootstrap transaction body (src/api/bootstrap-owner.js): abort (`none`)
when any entry equals "owner", else propose the map with uid as owner.
`current` is `none` when the node does not exist (`currentRoles ?? {}`). -/
def bootstrapTx (uid : String) (current : Option RolesMap) : Option RolesMap :=
  let roles := current.getD []
  if (owners roles).length > 0 then none
  else some (setRole roles uid "owner")

/-- Transaction outcome as the caller sees it: HTTP status plus the state
the node holds afterwards (aborted transactions leave it unchanged). -/
def bootstrapTxRun (uid : String) (current : Option RolesMap) :
    Nat × Option RolesMap :=
  match bootstrapTx uid current with
  | none => (409, current)
  | some m2 => (200, some m2)

/-- UpdateRole transaction body (src/unnamed/part_004, `role !== "owner"`
branch): abort when the owner set is exactly `[targetUid]`, else delete
(`newRole = none`) or reassign. -/
def updateRoleTx (targetUid : String) (newRole : Option String)
    (current : Option RolesMap) : Option RolesMap :=
  let roles := current.getD []
  let ows := owners roles
  if ows.length = 1 ∧ ows.head? = some targetUid then none
  else
    match newRole with
    | none => some (delRole roles targetUid)
    | some r => some (setRole roles targetUid r)

/-- One mutation operation on a tenant's roles node. -/
inductive Op
  | bootstrap (uid : String)
  | updateRole (targetUid : String) (newRole : Option String)
deriving DecidableEq, Repr

/-- Effect of one handler call on the roles node. Bootstrap always runs its
transaction; UpdateRole runs the guarded transaction unless the new role is
"owner", in which case the handler does a plain `set` on the child path. -/
def applyOp (m : RolesMap) : Op → RolesMap
  | .bootstrap uid =>
    match bootstrapTx uid (some m) with
    | some m2 => m2
    | none => m
  | .updateRole targetUid newRole =>
    if newRole = some "owner" then setRole m targetUid "owner"
    else
      match updateRoleTx targetUid newRole (some m) with
      | some m2 => m2
      | none => m

/-- N sequential Bootstrap attempts (the store serializes the transactions);
returns the final map and the per-call HTTP statuses. -/
def runBootstraps (m : RolesMap) : List String → RolesMap × List Nat
  | [] => (m, [])
  | uid :: rest =>
    match bootstrapTx uid (some m) with
    | some m2 =>
      let r := runBootstraps m2 rest
      (r.1, 200 :: r.2)
    | none =>
      let r := runBootstraps m rest
      (r.1, 409 :: r.2)

/-! ## Lease lock (src/unnamed/part_001) -/

/-- The `analytics/_lock/backfill` record `{ lockId, expiresAt }`. -/
structure LockRec where
  lockId : String
  expiresAt : Nat
deriving DecidableEq, Repr

/-- 10-minute safety TTL from acquireLock. -/
def TTL_MS : Nat := 10 * 60 * 1000

/-- acquireLock transaction body: `none` = abort (valid lock held), otherwise
commit the fresh record. The JS guard is
`current && current.expiresAt && Date.now() < current.expiresAt`
(a zero `expiresAt` is falsy). -/
def acquireLockTx (now : Nat) (newId : String) (current : Option LockRec) :
    Option (Option LockRec) :=
  match current with
  | some c =>
    if c.expiresAt ≠ 0 ∧ now < c.expiresAt then none
    else some (some ⟨newId, now + TTL_MS⟩)
  | none => some (some ⟨newId, now + TTL_MS⟩)

/-- acquireLock as the caller sees it: the returned token (null on abort)
and the state of the lock record afterwards. -/
def acquireLock (now : Nat) (newId : String) (current : Option LockRec) :
    Option String × Option LockRec :=
  match acquireLockTx now newId current with
  | none => (none, current)
  | some v => (some newId, v)

/-- releaseLock transaction body: abort unless the stored lockId matches,
else delete (commit `null`). -/
def releaseLockTx (lockId : String) (current : Option LockRec) :
    Option (Option LockRec) :=
  match current with
  | none => none
  | some c => if c.lockId ≠ lockId then none else some none

/-- State of the lock record after releaseLock. -/
def releaseLock (lockId : String) (current : Option LockRec) : Option LockRec :=
  match releaseLockTx lockId current with
  | none => current
  | some v => v

/-! ## Date arithmetic (dateRange in src/unnamed/part_001, buildCalendar
in src/unnamed/part_006). Dates are `YYYY-MM-DD` strings; the JS code maps
them to UTC timestamps; we map valid ones to Julian day numbers. -/

def digitsToNat (cs : List Char) : Nat :=
  cs.foldl (fun acc c => acc * 10 + (c.toNat - 48)) 0

/-- Parse a string matching `^\d{4}-\d{2}-\d{2}$` into (year, month, day). -/
def parseDate (s : String) : Option (Nat × Nat × Nat) :=
  match s.toList with
  | [y1, y2, y3, y4, h1, m1, m2, h2, d1, d2] =>
    if h1 = '-' ∧ h2 = '-' ∧ ([y1, y2, y3, y4, m1, m2, d1, d2].all Char.isDigit) then
      some (digitsToNat [y1, y2, y3, y4], digitsToNat [m1, m2], digitsToNat [d1, d2])
    else none
  | _ => none

/-- The `/^\d{4}-\d{2}-\d{2}$/` format test. -/
def matchesDateRe (s : String) : Bool := (parseDate s).isSome

def isLeap (y : Nat) : Bool := y % 4 = 0 ∧ (y % 100 ≠ 0 ∨ y % 400 = 0)

def daysInMonth (y m : Nat) : Nat :=
  if m = 2 then (if isLeap y then 29 else 28)
  else if m = 4 ∨ m = 6 ∨ m = 9 ∨ m = 11 then 30
  else 31

/-- Calendar validity, as enforced by JS ISO-8601 `Date` parsing: an
out-of-range month or day yields an Invalid Date. -/
def validYMD (y m d : Nat) : Bool :=
  1 ≤ m ∧ m ≤ 12 ∧ 1 ≤ d ∧ d ≤ daysInMonth y m

/-- Julian day number of a (valid, year ≥ 0) civil date. -/
def toJDN (y m d : Nat) : Nat :=
  let a := (14 - m) / 12
  let y2 := y + 4800 - a
  let m2 := m + 12 * a - 3
  d + (153 * m2 + 2) / 5 + 365 * y2 + y2 / 4 + y2 / 400 - y2 / 100 - 32045

/-- Civil date of a Julian day number (inverse of `toJDN` on valid dates). -/
def fromJDN (j : Nat) : Nat × Nat × Nat :=
  let a := j + 32044
  let b := (4 * a + 3) / 146097
  let c := a - 146097 * b / 4
  let e := (4 * c + 3) / 1461
  let f := c - 1461 * e / 4
  let m2 := (5 * f + 2) / 153
  let day := f - (153 * m2 + 2) / 5 + 1
  let month := m2 + 3 - 12 * (m2 / 10)
  let year := 100 * b + e + m2 / 10 - 4800
  (year, month, day)

/-- JS `new Date(s + "T12:00:00Z")`: defined (as a day number) exactly when
the string matches the format and is a real calendar date. -/
def jsDate (s : String) : Option Nat :=
  match parseDate s with
  | some (y, m, d) => if validYMD y m d then some (toJDN y m d) else none
  | none => none

/-- `Date.prototype.getUTCDay` (0 = Sunday … 6 = Saturday) of a day number. -/
def jdnDow (j : Nat) : Nat := (j + 1) % 7

def pad2 (n : Nat) : String := if n < 10 then "0" ++ toString n else toString n

def pad4 (n : Nat) : String :=
  if n < 10 then "000" ++ toString n
  else if n < 100 then "00" ++ toString n
  else if n < 1000 then "0" ++ toString n
  else toString n

/-- `toISOString().slice(0, 10)` of a day number. -/
def fmtJDN (j : Nat) : String :=
  let ymd := fromJDN j
  pad4 ymd.1 ++ "-" ++ pad2 ymd.2.1 ++ "-" ++ pad2 ymd.2.2

/-- dateRange (src/unnamed/part_001): the JS loop steps one UTC day at a
time from `lo` while `d <= end`; on an Invalid Date the comparison is false
and the list is empty. -/
def dateRange (lo hi : String) : List String :=
  match jsDate lo, jsDate hi with
  | some a, some b =>
    if a ≤ b then (List.range (b + 1 - a)).map (fun i => fmtJDN (a + i)) else []
  | _, _ => []

/-! ## Fixed holiday tables (src/unnamed/part_006) -/

def IL_HOLIDAYS : List String := [
  "2024-10-02", "2024-10-03",
  "2024-10-11",
  "2024-10-16", "2024-10-17",
  "2024-10-23", "2024-10-24",
  "2024-12-25", "2024-12-26", "2024-12-27", "2024-12-28",
  "2024-12-29", "2024-12-30", "2024-12-31", "2025-01-01",
  "2025-03-13", "2025-03-14",
  "2025-04-12", "2025-04-13",
  "2025-04-14", "2025-04-15", "2025-04-16", "2025-04-17",
  "2025-04-18", "2025-04-19",
  "2025-05-05",
  "2025-05-12",
  "2025-05-13",
  "2025-05-16",
  "2025-06-01", "2025-06-02",
  "2025-08-03",
  "2025-09-22", "2025-09-23",
  "2025-10-01",
  "2025-10-06", "2025-10-07",
  "2025-10-08", "2025-10-09", "2025-10-10", "2025-10-11", "2025-10-12",
  "2025-10-13", "2025-10-14",
  "2025-12-14", "2025-12-15", "2025-12-16", "2025-12-17",
  "2025-12-18", "2025-12-19", "2025-12-20", "2025-12-21",
  "2026-03-02", "2026-03-03",
  "2026-03-31", "2026-04-01",
  "2026-04-02", "2026-04-03", "2026-04-04", "2026-04-05",
  "2026-04-06", "2026-04-07",
  "2026-04-20",
  "2026-04-28", "2026-04-29",
  "2026-05-19", "2026-05-20",
  "2026-07-23",
  "2026-09-10", "2026-09-11",
  "2026-09-19",
  "2026-09-24", "2026-09-25",
  "2026-09-26", "2026-09-27", "2026-09-28", "2026-09-29", "2026-09-30",
  "2026-10-01", "2026-10-02"]

def IL_HOLIDAY_EVES : List String := [
  "2024-10-01",
  "2024-10-10",
  "2024-10-15",
  "2024-10-22",
  "2025-03-12",
  "2025-04-11",
  "2025-04-17",
  "2025-05-11",
  "2025-05-31",
  "2025-08-02",
  "2025-09-21",
  "2025-09-30",
  "2025-10-05",
  "2025-10-12",
  "2026-03-01",
  "2026-03-30",
  "2026-04-05",
  "2026-04-27",
  "2026-05-18",
  "2026-07-22",
  "2026-09-09",
  "2026-09-18",
  "2026-09-23",
  "2026-09-30"]

def NEW_YEAR_EVES : List String := [
  "2024-12-31",
  "2025-12-31",
  "2026-12-31"]

structure Calendar where
  dow : Nat
  weekend : Bool
  month : Nat
  holiday : Bool
  holiday_eve : Bool
  new_year_eve : Bool
deriving DecidableEq, Repr

/-- buildCalendar (src/unnamed/part_006). The source builds a `Date` from
`date + "T12:00:00Z"`; `none` models the Invalid-Date case, which no caller
reaches because `date` is format-checked upstream. -/
def buildCalendar (date : String) : Option Calendar :=
  match jsDate date with
  | none => none
  | some j =>
    let dow := jdnDow j
    some { dow := dow
           weekend := dow = 5 ∨ dow = 6
           month := ((parseDate date).map (fun t => t.2.1)).getD 0
           holiday := date ∈ IL_HOLIDAYS
           holiday_eve := date ∈ IL_HOLIDAY_EVES ∨ date ∈ NEW_YEAR_EVES
           new_year_eve := date ∈ NEW_YEAR_EVES }

/-- The ISO string of the previous UTC day (used to phrase "one day before
a listed holiday"). -/
def prevDay (date : String) : Option String :=
  (jsDate date).map (fun j => fmtJDN (j - 1))

/-! ## Analytics sources and builder (src/unnamed/part_005, part_006) -/

/-- The structured `{ source, reason }` error thrown by fetchers. -/
structure SrcErr where
  source : String
  reason : String
deriving DecidableEq, Repr

inductive FetchErr
  | timeout
  | network
deriving DecidableEq, Repr

/-- Outcome of one `fetchWithTimeout` call: a thrown error (AbortError maps
to timeout, anything else to network) or a response with its `ok` flag,
status code, and decoded body fields. -/
inductive FetchResult (α : Type)
  | fail (e : FetchErr)
  | resp (ok : Bool) (status : Nat) (body : α)
deriving DecidableEq, Repr

structure Beecomm where
  revenue_total : Option ℚ
  tickets : Option ℚ
  revenue_dine_in : Option ℚ
  revenue_delivery : Option ℚ
  revenue_takeaway : Option ℚ
  hourly : List (String × ℚ)
deriving DecidableEq, Repr

/-- fetchBeecommDaily (src/unnamed/part_006): throws `{beecomm, timeout}` or
`{beecomm, network}` on a fetch error, `{beecomm, http_<status>}` on a
non-ok response, else returns the decoded summary (`body` stands for the
already-extracted numeric fields). -/
def fetchBeecommDaily (r : FetchResult Beecomm) : Except SrcErr Beecomm :=
  match r with
  | .fail .timeout => .error ⟨"beecomm", "timeout"⟩
  | .fail .network => .error ⟨"beecomm", "network"⟩
  | .resp ok status body =>
    if ¬ ok then .error ⟨"beecomm", "http_" ++ toString status⟩
    else .ok body

structure Staffing where
  total_hours : Option ℚ
deriving DecidableEq, Repr

/-- fetchTabitHours (src/unnamed/part_006): returns null without fetching
when TABIT_API_KEY is unset/empty (falsy), soft-fails to null on any fetch
error or non-ok status. The Bool records whether a network request was
issued. -/
def fetchTabitHours (apiKey : String) (r : FetchResult (Option ℚ)) :
    Option Staffing × Bool :=
  if apiKey = "" then (none, false)
  else
    match r with
    | .fail _ => (none, true)
    | .resp ok _ body => if ¬ ok then (none, true) else (some ⟨body⟩, true)

structure Weather where
  rain_mm : ℚ
  is_rain_day : Bool
  temp_avg : ℚ
  wind_avg : ℚ
deriving DecidableEq, Repr

structure Alerts where
  alert_count : Nat
  alert_minutes : Nat
  is_alert_day : Bool
deriving DecidableEq, Repr

/-- One `Promise.allSettled` entry. -/
inductive Settled (α : Type)
  | fulfilled (value : α)
  | rejected (reason : SrcErr)
deriving DecidableEq, Repr

structure Sources where
  beecomm : String
  weather : String
  oref : String
  tabit : String
deriving DecidableEq, Repr

structure Meta where
  createdAt : Nat
  version : String
  tenantId : String
  branchId : String
  sources : Sources
deriving DecidableEq, Repr

structure DailyDoc where
  revenue_total : ℚ
  tickets : ℚ
  avg_check : ℚ
  revenue_dine_in : Option ℚ
  revenue_delivery : Option ℚ
  revenue_takeaway : Option ℚ
  hourly : List (String × ℚ)
  weather : Option Weather
  alerts : Option Alerts
  calendar : Option Calendar
  staffing : Staffing
  meta : Meta
deriving DecidableEq, Repr

def BRANCH_ID : String := "main"

/-- `Math.round(q * 100) / 100` over exact rationals (Math.round is
floor(x + 1/2)). -/
def round2 (q : ℚ) : ℚ := ((q * 100 + 1/2).floor : ℚ) / 100

/-- buildDailyDoc (src/unnamed/part_005). The required Beecomm fetch outcome
and the three `allSettled` optional outcomes are parameters; `now` stands
for `Date.now()` at assembly time. -/
def buildDailyDoc (tenantId date : String) (now : Nat)
    (beecommFetch : FetchResult Beecomm)
    (tabit : Settled (Option Staffing))
    (weather : Settled Weather)
    (oref : Settled Alerts) :
    Except SrcErr (String × DailyDoc) :=
  match fetchBeecommDaily beecommFetch with
  | .error e => .error e
  | .ok beecomm =>
    let staffing : Staffing :=
      match tabit with
      | .fulfilled v => v.getD ⟨none⟩
      | .rejected _ => ⟨none⟩
    let weatherDoc : Option Weather :=
      match weather with
      | .fulfilled w => some w
      | .rejected _ => none
    let alertsDoc : Option Alerts :=
      match oref with
      | .fulfilled a => some a
      | .rejected _ => none
    let calendar := buildCalendar date
    let revenue_total := beecomm.revenue_total.getD 0
    let tickets := beecomm.tickets.getD 0
    let doc : DailyDoc :=
      { revenue_total := revenue_total
        tickets := tickets
        avg_check := if tickets > 0 then round2 (revenue_total / tickets) else 0
        revenue_dine_in := beecomm.revenue_dine_in
        revenue_delivery := beecomm.revenue_delivery
        revenue_takeaway := beecomm.revenue_takeaway
        hourly := beecomm.hourly
        weather := weatherDoc
        alerts := alertsDoc
        calendar := calendar
        staffing := staffing
        meta :=
          { createdAt := now
            version := "1.0.0"
            tenantId := tenantId
            branchId := BRANCH_ID
            sources :=
              { beecomm := "ok"
                weather := match weather with
                  | .fulfilled _ => "ok"
                  | .rejected _ => "missing"
                oref := match oref with
                  | .fulfilled _ => "ok"
                  | .rejected _ => "missing"
                tabit := match tabit with
                  | .fulfilled (some _) => "ok"
                  | _ => "missing" } } }
    .ok ("tenants/" ++ tenantId ++ "/analytics/daily/" ++ BRANCH_ID ++ "/" ++ date, doc)

/-! ## Scheduled daily builder (src/api/analytics/daily-builder.js) -/

structure CronOutcome where
  status : Nat
  built : List String
  skipped : List (String × String)
  tenantsIterated : Bool
deriving DecidableEq, Repr

/-- `a.length === b.length && timingSafeEqual(a, b)` on the two UTF-8
buffers: equal byte sequences are exactly equal strings, so the comparison
decides equality (lengths model byte lengths). -/
def secretMatches (incoming secret : String) : Bool :=
  incoming.length = secret.length ∧ incoming = secret

/-- Scheduled daily builder handler: `cronSecret` is `CRON_SECRET || ""`,
`xHeader` / `authBearer` the two credential headers (the bearer value
already stripped of its prefix), `dateQ` the query override, `defaultDate`
the computed yesterday, `tenantsLoad` the `tenants` read (`none` = the read
threw), and `buildOutcome` each tenant's build-and-write result. -/
def dailyBuilderHandler (cronSecret xHeader authBearer dateQ defaultDate : String)
    (tenantsLoad : Option (List String))
    (buildOutcome : String → Except SrcErr Unit) : CronOutcome :=
  if cronSecret = "" then ⟨503, [], [], false⟩
  else
    let incoming := if xHeader = "" then authBearer else xHeader
    if ¬ secretMatches incoming cronSecret then ⟨404, [], [], false⟩
    else
      let date := if dateQ ≠ "" then dateQ else defaultDate
      if ¬ matchesDateRe date then ⟨400, [], [], false⟩
      else
        match tenantsLoad with
        | none => ⟨503, [], [], false⟩
        | some tenants =>
          let step := fun (acc : List String × List (String × String)) t =>
            match buildOutcome t with
            | .ok _ => (acc.1 ++ [t], acc.2)
            | .error e => (acc.1, acc.2 ++ [(t, e.source ++ "/" ++ e.reason)])
          let r := tenants.foldl step ([], [])
          ⟨200, r.1, r.2, true⟩

/-! ## Backfill handler (src/unnamed/part_001) -/

def MAX_DAYS : Nat := 90

/-- JS string `<`: lexicographic comparison of UTF-16 code units (for the
date strings at hand, plain characters). -/
def jsStrLtChars : List Char → List Char → Bool
  | [], [] => false
  | [], _ :: _ => true
  | _ :: _, [] => false
  | c :: as, d :: bs =>
    if c < d then true else if d < c then false else jsStrLtChars as bs

/-- JS `a > b` on strings. -/
def jsStrGt (a b : String) : Bool := jsStrLtChars b.toList a.toList

/-- Observable side-effecting steps of the backfill handler. -/
inductive Ev
  | lockAcquireAttempt
  | buildCall (date : String)
  | storeWrite (path : String)
  | lockRelease
deriving DecidableEq, Repr

structure BackfillOutcome where
  status : Nat
  built : List String
  skipped : List (String × String)
  events : List Ev
deriving DecidableEq, Repr

/-- Backfill handler from parameter validation on (the method check, auth
and rate limiting that precede it touch neither the lock nor any data
provider nor the store). `rbacOk` is the requireTenantAccess outcome (a
store read), `lockFree` whether the lock transaction can acquire, and
`buildOutcome` each date's build result (`ok` carries the document path;
`error` the caught per-date failure). -/
def backfillHandler (tenantId lo hi : String) (rbacOk lockFree : Bool)
    (buildOutcome : String → Except SrcErr String) : BackfillOutcome :=
  if tenantId = "" ∨ hasForbiddenChar tenantId then ⟨400, [], [], []⟩
  else if ¬ matchesDateRe lo then ⟨400, [], [], []⟩
  else if ¬ matchesDateRe hi then ⟨400, [], [], []⟩
  else if jsStrGt lo hi then ⟨400, [], [], []⟩
  else
    let dates := dateRange lo hi
    if dates.length > MAX_DAYS then ⟨400, [], [], []⟩
    else if ¬ rbacOk then ⟨403, [], [], []⟩
    else if ¬ lockFree then ⟨409, [], [], [.lockAcquireAttempt]⟩
    else
      let step := fun (acc : List String × List (String × String) × List Ev) d =>
        match buildOutcome d with
        | .ok path =>
          (acc.1 ++ [d], acc.2.1, acc.2.2 ++ [.buildCall d, .storeWrite path])
        | .error e =>
          (acc.1, acc.2.1 ++ [(d, e.source ++ "/" ++ e.reason)],
           acc.2.2 ++ [.buildCall d])
      let r := dates.foldl step ([], [], [])
      ⟨200, r.1, r.2.1, [.lockAcquireAttempt] ++ r.2.2 ++ [.lockRelease]⟩

/-! ## Helper lemmas -/

theorem owners_cons_owner (m : RolesMap) (uid : String) :
    owners ((uid, "owner") :: m) = uid :: owners m := by
  simp [owners]

theorem owners_nonempty_iff_len (m : RolesMap) :
    (owners m).length > 0 ↔ owners m ≠ [] := by
  exact List.length_pos

theorem bootstrapTx_none_iff (uid : String) (current : Option RolesMap) :
    bootstrapTx uid current = none ↔ owners (current.getD []) ≠ [] := by
  by_cases h : (owners (current.getD [])).length > 0
  · simp [bootstrapTx, h, (owners_nonempty_iff_len _).mp h]
  · have h2 : ¬ owners (current.getD []) ≠ [] := fun hne =>
      h ((owners_nonempty_iff_len _).mpr hne)
    simp [bootstrapTx, h, h2]

theorem runBootstraps_conflict (uids : List String) (m : RolesMap)
    (h : owners m ≠ []) :
    runBootstraps m uids = (m, List.replicate uids.length 409) := by
  induction uids with
  | nil => simp [runBootstraps]
  | cons uid rest ih =>
    have habort : bootstrapTx uid (some m) = none := by
      simpa using (bootstrapTx_none_iff uid (some m)).mpr (by simpa using h)
    simp [runBootstraps, habort, ih, List.replicate_succ]

/-! ## Claim theorems -/

/-- C3: the Bootstrap transaction aborts (caller sees Conflict 409, node
unchanged) iff the freshly read roles map has an entry equal to "owner";
otherwise it commits the map extended with uid as owner; hence from a fresh
(owner-free) tenant, among N serialized Bootstrap calls exactly the first
succeeds and the rest receive 409. -/
theorem C3_bootstrap_conflict_iff :
    (∀ uid current, bootstrapTx uid current = none ↔
       owners (current.getD []) ≠ []) ∧
    (∀ uid current, owners (current.getD []) = [] →
       bootstrapTxRun uid current =
         (200, some (setRole (current.getD []) uid "owner"))) ∧
    (∀ uid current, owners (current.getD []) ≠ [] →
       bootstrapTxRun uid current = (409, current)) ∧
    (∀ (m : RolesMap) (uids : List String), owners m = [] → uids ≠ [] →
       (runBootstraps m uids).2 = 200 :: List.replicate (uids.length - 1) 409) := by
  refine ⟨bootstrapTx_none_iff, ?_, ?_, ?_⟩
  · intro uid current h
    have hc : bootstrapTx uid current = some (setRole (current.getD []) uid "owner") := by
      have hlen : ¬ (owners (current.getD [])).length > 0 := by simp [h]
      simp [bootstrapTx, hlen]
    simp [bootstrapTxRun, hc]
  · intro uid current h
    have hn : bootstrapTx uid current = none := (bootstrapTx_none_iff uid current).mpr h
    simp [bootstrapTxRun, hn]
  · intro m uids hm hne
    cases uids with
    | nil => exact absurd rfl hne
    | cons uid rest =>
      have hcommit : bootstrapTx uid (some m) = some (setRole m uid "owner") := by
        have hlen : ¬ (owners m).length > 0 := by simp [hm]
        simp [bootstrapTx, hlen]
      have hafter : owners (setRole m uid "owner") ≠ [] := by
        simp [setRole, owners_cons_owner]
      simp [runBootstraps, hcommit, runBootstraps_conflict rest _ hafter]

/-- Witness for C3 at concrete inputs. -/
theorem C3_bootstrap_conflict_iff_witness :
    bootstrapTx "mallory" (some [("alice", "owner")]) = none ∧
    bootstrapTxRun "alice" (some []) = (200, some [("alice", "owner")]) ∧
    (runBootstraps [] ["u1", "u2", "u3"]).2 = [200, 409, 409] := by
  refine ⟨?_, ?_, ?_⟩
  · exact (C3_bootstrap_conflict_iff.1 "mallory" (some [("alice", "owner")])).mpr
      (by decide)
  · simpa [setRole] using C3_bootstrap_conflict_iff.2.1 "alice" (some []) (by decide)
  · simpa using C3_bootstrap_conflict_iff.2.2.2 [] ["u1", "u2", "u3"] rfl (by decide)

/-- C4: while a live record exists (now < expiresAt) acquire returns null
and leaves it unchanged; with no record, or once now ≥ expiresAt, acquire
commits a fresh lockId with expiry now + TTL even without a prior release;
release with a non-matching lockId is a no-op, and release with the
matching lockId deletes the record. -/
theorem C4_lease_lock_lifecycle :
    (∀ now newId c, now < c.expiresAt →
       acquireLock now newId (some c) = (none, some c)) ∧
    (∀ now newId,
       acquireLock now newId none = (some newId, some ⟨newId, now + TTL_MS⟩)) ∧
    (∀ now newId c, c.expiresAt ≤ now →
       acquireLock now newId (some c) = (some newId, some ⟨newId, now + TTL_MS⟩)) ∧
    (∀ t c, t ≠ c.lockId → releaseLock t (some c) = some c) ∧
    (∀ c, releaseLock c.lockId (some c) = none) := by
  refine ⟨?_, ?_, ?_, ?_, ?_⟩
  · intro now newId c h
    have hz : c.expiresAt ≠ 0 := by omega
    simp [acquireLock, acquireLockTx, hz, h]
  · intro now newId
    simp [acquireLock, acquireLockTx]
  · intro now newId c h
    have hnl : ¬ (c.expiresAt ≠ 0 ∧ now < c.expiresAt) := by omega
    simp [acquireLock, acquireLockTx, hnl]
  · intro t c h
    have h2 : ¬ c.lockId = t := fun hc => h hc.symm
    simp [releaseLock, releaseLockTx, h2]
  · intro c
    simp [releaseLock, releaseLockTx]

/-- Witness for C4 at concrete inputs. -/
theorem C4_lease_lock_lifecycle_witness :
    acquireLock 1000 "new" (some ⟨"old", 2000⟩) = (none, some ⟨"old", 2000⟩) ∧
    acquireLock 2000 "new" (some ⟨"old", 2000⟩) =
      (some "new", some ⟨"new", 2000 + TTL_MS⟩) ∧
    releaseLock "stale" (some ⟨"cur", 9000⟩) = some ⟨"cur", 9000⟩ ∧
    releaseLock "cur" (some ⟨"cur", 9000⟩) = none := by
  refine ⟨?_, ?_, ?_, ?_⟩
  · exact C4_lease_lock_lifecycle.1 1000 "new" ⟨"old", 2000⟩ (by decide)
  · exact C4_lease_lock_lifecycle.2.2.1 2000 "new" ⟨"old", 2000⟩ (by decide)
  · exact C4_lease_lock_lifecycle.2.2.2.1 "stale" ⟨"cur", 9000⟩ (by decide)
  · exact C4_lease_lock_lifecycle.2.2.2.2 ⟨"cur", 9000⟩

theorem roleRank_mem (r : String) (h : r ∈ VALID_ROLES) : ∃ k, roleRank r = some k := by
  simp only [VALID_ROLES, List.mem_cons, List.not_mem_nil, or_false] at h
  rcases h with h | h | h | h <;> subst h
  · exact ⟨4, rfl⟩
  · exact ⟨3, rfl⟩
  · exact ⟨2, rfl⟩
  · exact ⟨1, rfl⟩

/-- C2: with valid inputs, requireTenantAccess fails with 503 when the
membership read errors or times out, fails with 403 "not a tenant member"
when the read yields anything other than boolean true, and returns a role
string only when membership is exactly true, the role read succeeds with a
known role, and its rank is at least minRole's rank. -/
theorem C2_requireTenantAccess_fail_closed (uid tenantId minRole : String)
    (hu1 : uid ≠ "") (hu2 : uid.length ≤ 128) (hu3 : ¬ hasForbiddenChar uid)
    (ht1 : tenantId ≠ "") (ht2 : tenantId.length ≤ 128)
    (ht3 : ¬ hasForbiddenChar tenantId) (hm : minRole ∈ VALID_ROLES) :
    (∀ roleRead, requireTenantAccess uid tenantId minRole .err roleRead =
       .error ⟨503, "authorization check unavailable"⟩) ∧
    (∀ v roleRead, v ≠ JVal.vbool true →
       requireTenantAccess uid tenantId minRole (.ok v) roleRead =
         .error ⟨403, "not a tenant member"⟩) ∧
    (∀ memberRead roleRead role,
       requireTenantAccess uid tenantId minRole memberRead roleRead = .ok role →
       memberRead = .ok (.vbool true) ∧ roleRead = .ok (.vstr role) ∧
       role ∈ VALID_ROLES ∧
       ∃ rr mr, roleRank role = some rr ∧ roleRank minRole = some mr ∧ mr ≤ rr) := by
  have hv1 : ¬ (uid = "" ∨ uid.length > 128) := not_or.mpr ⟨hu1, by omega⟩
  have hv2 : ¬ (tenantId = "" ∨ tenantId.length > 128) := not_or.mpr ⟨ht1, by omega⟩
  have hv3 : ¬ (minRole ∉ VALID_ROLES) := fun hn => hn hm
  have hv4 : ¬ (hasForbiddenChar uid = true ∨ hasForbiddenChar tenantId = true) :=
    not_or.mpr ⟨hu3, ht3⟩
  have hred : ∀ memberRead roleRead,
      requireTenantAccess uid tenantId minRole memberRead roleRead =
      (match memberRead with
       | .err => .error ⟨503, "authorization check unavailable"⟩
       | .ok memberVal =>
         if memberVal ≠ .vbool true then .error ⟨403, "not a tenant member"⟩
         else
           match roleRead with
           | .err => .error ⟨503, "authorization check unavailable"⟩
           | .ok roleVal =>
             match roleVal with
             | .vstr role =>
               if role ∉ VALID_ROLES then .error ⟨403, "no valid role assigned"⟩
               else if ¬ hasRole role minRole then .error ⟨403, "insufficient role"⟩
               else .ok role
             | _ => .error ⟨403, "no valid role assigned"⟩) := by
    intro memberRead roleRead
    simp only [requireTenantAccess, if_neg hv1, if_neg hv2, if_neg hv3, if_neg hv4]
  refine ⟨?_, ?_, ?_⟩
  · intro roleRead
    rw [hred]
  · intro v roleRead hv
    rw [hred]
    simp [hv]
  · intro memberRead roleRead role h
    rw [hred] at h
    cases memberRead with
    | err => simp at h
    | ok v =>
      by_cases hvb : v = JVal.vbool true
      · subst hvb
        cases roleRead with
        | err => simp at h
        | ok rv =>
          cases rv with
          | vstr s =>
            by_cases hs : s ∈ VALID_ROLES
            · by_cases hr : hasRole s minRole
              · have hrole : s = role := by
                  simp [hs, hr] at h
                  exact h
                subst hrole
                obtain ⟨rr, hrr⟩ := roleRank_mem s hs
                obtain ⟨mr, hmr⟩ := roleRank_mem minRole hm
                refine ⟨rfl, rfl, hs, rr, mr, hrr, hmr, ?_⟩
                have hx := hr
                simp only [hasRole, hrr, hmr, Option.getD_some, ge_iff_le,
                  decide_eq_true_eq] at hx
                exact hx
              · simp [hs, hr] at h
            · simp [hs] at h
          | vbool b => simp at h
          | vnum n => simp at h
          | vnull => simp at h
      · simp [hvb] at h

/-- Witness for C2 at concrete inputs. -/
theorem C2_requireTenantAccess_fail_closed_witness :
    requireTenantAccess "alice" "acme" "manager" .err (.ok (.vstr "owner")) =
      .error ⟨503, "authorization check unavailable"⟩ ∧
    requireTenantAccess "alice" "acme" "manager" (.ok .vnull) (.ok (.vstr "owner")) =
      .error ⟨403, "not a tenant member"⟩ := by
  constructor
  · exact (C2_requireTenantAccess_fail_closed "alice" "acme" "manager"
      (by decide) (by decide) (by decide) (by decide) (by decide) (by decide)
      (by decide)).1 (.ok (.vstr "owner"))
  · exact (C2_requireTenantAccess_fail_closed "alice" "acme" "manager"
      (by decide) (by decide) (by decide) (by decide) (by decide) (by decide)
      (by decide)).2.1 .vnull (.ok (.vstr "owner")) (by decide)

/-- C6: the scheduled daily builder answers 503 and builds nothing when
CRON_SECRET is unconfigured, answers an opaque 404 and builds nothing when
the supplied secret does not match, and iterates tenants only when the
supplied secret equals the configured one. -/
theorem C6_cron_fail_closed :
    (∀ xh ab dq dd tl bo,
       dailyBuilderHandler "" xh ab dq dd tl bo = ⟨503, [], [], false⟩) ∧
    (∀ secret xh ab dq dd tl bo, secret ≠ "" →
       (if xh = "" then ab else xh) ≠ secret →
       dailyBuilderHandler secret xh ab dq dd tl bo = ⟨404, [], [], false⟩) ∧
    (∀ secret xh ab dq dd tl bo,
       (dailyBuilderHandler secret xh ab dq dd tl bo).tenantsIterated = true →
       secret ≠ "" ∧ (if xh = "" then ab else xh) = secret) := by
  refine ⟨?_, ?_, ?_⟩
  · intro xh ab dq dd tl bo
    simp [dailyBuilderHandler]
  · intro secret xh ab dq dd tl bo h1 h2
    have hsm : secretMatches (if xh = "" then ab else xh) secret = false := by
      simp [secretMatches, h2]
    simp [dailyBuilderHandler, h1, hsm]
  · intro secret xh ab dq dd tl bo hit
    by_cases h1 : secret = ""
    · subst h1
      simp [dailyBuilderHandler] at hit
    · by_cases h2 : (if xh = "" then ab else xh) = secret
      · exact ⟨h1, h2⟩
      · have hsm : secretMatches (if xh = "" then ab else xh) secret = false := by
          simp [secretMatches, h2]
        simp [dailyBuilderHandler, h1, hsm] at hit

/-- Witness for C6 at concrete inputs. -/
theorem C6_cron_fail_closed_witness :
    dailyBuilderHandler "s3cret" "wrong" "" "" "2025-01-01" (some ["t1"])
      (fun _ => .ok ()) = ⟨404, [], [], false⟩ := by
  exact C6_cron_fail_closed.2.1 "s3cret" "wrong" "" "" "2025-01-01"
    (some ["t1"]) (fun _ => .ok ()) (by decide) (by decide)

/-- C5: buildDailyDoc rejects with a structured error exactly when the
required Beecomm fetch fails (with source "beecomm" and reason "network",
"timeout" or "http_&lt;status&gt;"); a rejected optional provider yields a null
feature block (staffing: total_hours null) and a "missing" status, and the
other providers' blocks and statuses do not depend on it. -/
theorem C5_required_vs_optional :
    (∀ tenantId date now bf tabit weather oref e,
       buildDailyDoc tenantId date now bf tabit weather oref = .error e ↔
       fetchBeecommDaily bf = .error e) ∧
    (∀ (r : FetchResult Beecomm) e, fetchBeecommDaily r = .error e →
       e.source = "beecomm" ∧
       (e.reason = "network" ∨ e.reason = "timeout" ∨
        ∃ s : Nat, e.reason = "http_" ++ toString s)) ∧
    (∀ tenantId date now bf reason weather oref p doc,
       buildDailyDoc tenantId date now bf (.rejected reason) weather oref =
         .ok (p, doc) →
       doc.staffing = ⟨none⟩ ∧ doc.meta.sources.tabit = "missing") ∧
    (∀ tenantId date now bf tabit reason oref p doc,
       buildDailyDoc tenantId date now bf tabit (.rejected reason) oref =
         .ok (p, doc) →
       doc.weather = none ∧ doc.meta.sources.weather = "missing") ∧
    (∀ tenantId date now bf tabit weather reason p doc,
       buildDailyDoc tenantId date now bf tabit weather (.rejected reason) =
         .ok (p, doc) →
       doc.alerts = none ∧ doc.meta.sources.oref = "missing") ∧
    (∀ tenantId date now bf tabit tabit2 weather weather2 oref oref2 p doc p2 doc2,
       buildDailyDoc tenantId date now bf tabit weather oref = .ok (p, doc) →
       buildDailyDoc tenantId date now bf tabit2 weather2 oref2 = .ok (p2, doc2) →
       doc.revenue_total = doc2.revenue_total ∧ doc.tickets = doc2.tickets ∧
       doc.avg_check = doc2.avg_check ∧ doc.hourly = doc2.hourly ∧
       doc.meta.sources.beecomm = doc2.meta.sources.beecomm ∧ p = p2 ∧
       (tabit = tabit2 → doc.staffing = doc2.staffing ∧
          doc.meta.sources.tabit = doc2.meta.sources.tabit) ∧
       (weather = weather2 → doc.weather = doc2.weather ∧
          doc.meta.sources.weather = doc2.meta.sources.weather) ∧
       (oref = oref2 → doc.alerts = doc2.alerts ∧
          doc.meta.sources.oref = doc2.meta.sources.oref)) := by
  refine ⟨?_, ?_, ?_, ?_, ?_, ?_⟩
  · intro tenantId date now bf tabit weather oref e
    cases hfb : fetchBeecommDaily bf with
    | error e0 => simp [buildDailyDoc, hfb]
    | ok b => simp [buildDailyDoc, hfb]
  · intro r e h
    cases r with
    | fail fe =>
      cases fe with
      | timeout =>
        simp only [fetchBeecommDaily, Except.error.injEq] at h
        subst h
        exact ⟨rfl, Or.inr (Or.inl rfl)⟩
      | network =>
        simp only [fetchBeecommDaily, Except.error.injEq] at h
        subst h
        exact ⟨rfl, Or.inl rfl⟩
    | resp ok status body =>
      cases ok with
      | false =>
        simp only [fetchBeecommDaily, Bool.false_eq_true, not_false_eq_true,
          if_true, Except.error.injEq] at h
        subst h
        exact ⟨rfl, Or.inr (Or.inr ⟨status, rfl⟩)⟩
      | true => simp [fetchBeecommDaily] at h
  · intro tenantId date now bf reason weather oref p doc h
    cases hfb : fetchBeecommDaily bf with
    | error e0 => simp [buildDailyDoc, hfb] at h
    | ok b =>
      simp only [buildDailyDoc, hfb, Except.ok.injEq, Prod.mk.injEq] at h
      obtain ⟨-, hdoc⟩ := h
      subst hdoc
      exact ⟨rfl, rfl⟩
  · intro tenantId date now bf tabit reason oref p doc h
    cases hfb : fetchBeecommDaily bf with
    | error e0 => simp [buildDailyDoc, hfb] at h
    | ok b =>
      simp only [buildDailyDoc, hfb, Except.ok.injEq, Prod.mk.injEq] at h
      obtain ⟨-, hdoc⟩ := h
      subst hdoc
      exact ⟨rfl, rfl⟩
  · intro tenantId date now bf tabit weather reason p doc h
    cases hfb : fetchBeecommDaily bf with
    | error e0 => simp [buildDailyDoc, hfb] at h
    | ok b =>
      simp only [buildDailyDoc, hfb, Except.ok.injEq, Prod.mk.injEq] at h
      obtain ⟨-, hdoc⟩ := h
      subst hdoc
      exact ⟨rfl, rfl⟩
  · intro tenantId date now bf tabit tabit2 weather weather2 oref oref2
      p doc p2 doc2 h h2
    cases hfb : fetchBeecommDaily bf with
    | error e0 => simp [buildDailyDoc, hfb] at h
    | ok b =>
      simp only [buildDailyDoc, hfb, Except.ok.injEq, Prod.mk.injEq] at h h2
      obtain ⟨hp, hdoc⟩ := h
      obtain ⟨hp2, hdoc2⟩ := h2
      subst hdoc
      subst hdoc2
      subst hp
      subst hp2
      refine ⟨rfl, rfl, rfl, rfl, rfl, rfl, ?_, ?_, ?_⟩
      · rintro rfl
        exact ⟨rfl, rfl⟩
      · rintro rfl
        exact ⟨rfl, rfl⟩
      · rintro rfl
        exact ⟨rfl, rfl⟩

/-- Witness for C5 at concrete inputs. -/
theorem C5_required_vs_optional_witness :
    ((⟨"beecomm", "http_503"⟩ : SrcErr).source = "beecomm" ∧
     ((⟨"beecomm", "http_503"⟩ : SrcErr).reason = "network" ∨
      (⟨"beecomm", "http_503"⟩ : SrcErr).reason = "timeout" ∨
      ∃ s : Nat, (⟨"beecomm", "http_503"⟩ : SrcErr).reason =
        "http_" ++ toString s)) ∧
    (∃ p doc,
       buildDailyDoc "t1" "2025-01-02" 7
         (.resp true 200 ⟨some 100, some 4, none, none, none, []⟩)
         (.fulfilled (some ⟨some 12⟩)) (.rejected ⟨"weather", "timeout"⟩)
         (.fulfilled ⟨0, 0, false⟩) = .ok (p, doc) ∧
       doc.weather = none ∧ doc.meta.sources.weather = "missing") := by
  constructor
  · exact C5_required_vs_optional.2.1
      (.resp false 503 ⟨some 1, some 1, none, none, none, []⟩)
      ⟨"beecomm", "http_503"⟩ rfl
  · refine ⟨_, _, rfl, ?_⟩
    exact C5_required_vs_optional.2.2.2.1 "t1" "2025-01-02" 7
      (.resp true 200 ⟨some 100, some 4, none, none, none, []⟩)
      (.fulfilled (some ⟨some 12⟩)) ⟨"weather", "timeout"⟩
      (.fulfilled ⟨0, 0, false⟩) _ _ rfl

/-- C9: in the assembled document, avg_check is revenue_total / tickets
rounded to two decimals when tickets > 0 and exactly 0 when tickets is 0,
where revenue_total and tickets default to 0 when the provider returned
null for them. -/
theorem C9_avg_check (tenantId date : String) (now : Nat)
    (bf : FetchResult Beecomm) (b : Beecomm)
    (tabit : Settled (Option Staffing)) (weather : Settled Weather)
    (oref : Settled Alerts) (p : String) (doc : DailyDoc)
    (hb : fetchBeecommDaily bf = .ok b)
    (h : buildDailyDoc tenantId date now bf tabit weather oref = .ok (p, doc)) :
    doc.revenue_total = b.revenue_total.getD 0 ∧
    doc.tickets = b.tickets.getD 0 ∧
    (doc.tickets > 0 → doc.avg_check = round2 (doc.revenue_total / doc.tickets)) ∧
    (doc.tickets = 0 → doc.avg_check = 0) := by
  simp only [buildDailyDoc, hb, Except.ok.injEq, Prod.mk.injEq] at h
  obtain ⟨-, hdoc⟩ := h
  subst hdoc
  refine ⟨rfl, rfl, ?_, ?_⟩
  · intro ht
    simp only at ht ⊢
    rw [if_pos ht]
  · intro ht
    simp only at ht ⊢
    rw [ht]
    simp

/-- Witness for C9 at concrete inputs. -/
theorem C9_avg_check_witness :
    ∃ p doc,
      buildDailyDoc "t1" "2025-01-02" 7
        (.resp true 200 ⟨some 100, some 3, none, none, none, []⟩)
        (.fulfilled none) (.fulfilled ⟨0, false, 20, 5⟩)
        (.fulfilled ⟨0, 0, false⟩) = .ok (p, doc) ∧
      doc.avg_check = round2 (doc.revenue_total / doc.tickets) := by
  refine ⟨_, _, rfl, ?_⟩
  exact (C9_avg_check "t1" "2025-01-02" 7
    (.resp true 200 ⟨some 100, some 3, none, none, none, []⟩)
    ⟨some 100, some 3, none, none, none, []⟩
    (.fulfilled none) (.fulfilled ⟨0, false, 20, 5⟩)
    (.fulfilled ⟨0, 0, false⟩) _ _ rfl rfl).2.2.1 (by norm_num)

/-- C10: with no TABIT_API_KEY, fetchTabitHours resolves to null without a
network call; buildDailyDoc then records staffing total_hours null and
sources.tabit "missing"; sources.tabit is "ok" exactly when the tabit fetch
fulfilled with a non-null value. -/
theorem C10_tabit_unconfigured :
    (∀ r, fetchTabitHours "" r = (none, false)) ∧
    (∀ tenantId date now bf tabit weather oref p doc,
       buildDailyDoc tenantId date now bf tabit weather oref = .ok (p, doc) →
       (tabit = .fulfilled none →
          doc.staffing = ⟨none⟩ ∧ doc.meta.sources.tabit = "missing") ∧
       (doc.meta.sources.tabit = "ok" ↔ ∃ v, tabit = .fulfilled (some v))) := by
  constructor
  · intro r
    simp [fetchTabitHours]
  · intro tenantId date now bf tabit weather oref p doc h
    cases hfb : fetchBeecommDaily bf with
    | error e0 => simp [buildDailyDoc, hfb] at h
    | ok b =>
      simp only [buildDailyDoc, hfb, Except.ok.injEq, Prod.mk.injEq] at h
      obtain ⟨-, hdoc⟩ := h
      subst hdoc
      constructor
      · rintro rfl
        exact ⟨rfl, rfl⟩
      · cases tabit with
        | fulfilled v =>
          cases v with
          | some s => simp
          | none => simp
        | rejected r0 => simp

/-- Witness for C10 at concrete inputs. -/
theorem C10_tabit_unconfigured_witness :
    ∃ p doc,
      buildDailyDoc "t1" "2025-01-02" 7
        (.resp true 200 ⟨some 100, some 4, none, none, none, []⟩)
        (.fulfilled none) (.fulfilled ⟨0, false, 20, 5⟩)
        (.fulfilled ⟨0, 0, false⟩) = .ok (p, doc) ∧
      doc.staffing = ⟨none⟩ ∧ doc.meta.sources.tabit = "missing" := by
  refine ⟨_, _, rfl, ?_⟩
  exact (C10_tabit_unconfigured.2 "t1" "2025-01-02" 7
    (.resp true 200 ⟨some 100, some 4, none, none, none, []⟩)
    (.fulfilled none) (.fulfilled ⟨0, false, 20, 5⟩)
    (.fulfilled ⟨0, 0, false⟩) _ _ rfl).1 rfl

/-- C8 counterexample: the claim asserts holiday_eve is true for every date
one day before a listed holiday, but 2024-10-02 is one day before the
listed holiday 2024-10-03 and buildCalendar gives it holiday_eve = false
(only dates in the fixed eve / New-Year-eve tables are eves). -/
theorem C8_calendar_counterexample :
    "2024-10-03" ∈ IL_HOLIDAYS ∧
    prevDay "2024-10-03" = some "2024-10-02" ∧
    (buildCalendar "2024-10-02").map Calendar.holiday_eve = some false := by
  refine ⟨by decide, by decide, by decide⟩

/-- C8 amended: buildCalendar is a pure function of the date string with
holiday true exactly on the fixed holiday table, holiday_eve true exactly on
the fixed holiday-eve table or the New-Year-eve table, and weekend true
exactly when the 0-6 day-of-week number is 5 or 6. -/
theorem C8_calendar_pure (date : String) (c : Calendar)
    (h : buildCalendar date = some c) :
    (c.holiday = true ↔ date ∈ IL_HOLIDAYS) ∧
    (c.holiday_eve = true ↔ (date ∈ IL_HOLIDAY_EVES ∨ date ∈ NEW_YEAR_EVES)) ∧
    (c.weekend = true ↔ (c.dow = 5 ∨ c.dow = 6)) := by
  unfold buildCalendar at h
  cases hj : jsDate date with
  | none => rw [hj] at h; simp at h
  | some j =>
    rw [hj] at h
    simp only [Option.some.injEq] at h
    subst h
    refine ⟨by simp, by simp, by simp⟩

/-- Witness for the amended C8 at concrete inputs (2025-10-05, erev Sukkot,
and a Friday/Saturday weekend check). -/
theorem C8_calendar_pure_witness :
    ∃ c, buildCalendar "2025-10-05" = some c ∧
      (c.holiday_eve = true ↔
        ("2025-10-05" ∈ IL_HOLIDAY_EVES ∨ "2025-10-05" ∈ NEW_YEAR_EVES)) ∧
      (c.weekend = true ↔ (c.dow = 5 ∨ c.dow = 6)) := by
  refine ⟨_, rfl, (C8_calendar_pure "2025-10-05" _ rfl).2.1,
    (C8_calendar_pure "2025-10-05" _ rfl).2.2⟩

theorem jsDate_matches (s : String) (a : Nat) (h : jsDate s = some a) :
    matchesDateRe s = true := by
  unfold jsDate at h
  unfold matchesDateRe
  cases hp : parseDate s with
  | none => rw [hp] at h; simp at h
  | some t => simp [hp]

theorem dateRange_length (lo hi : String) (a b : Nat)
    (ha : jsDate lo = some a) (hb : jsDate hi = some b) (hab : a ≤ b) :
    (dateRange lo hi).length = b + 1 - a := by
  simp [dateRange, ha, hb, hab]

theorem getLast_append_singleton (l : List Ev) (a : Ev) :
    (l ++ [a]).getLast? = some a := List.getLast?_concat l

/-- C7: a backfill request whose inclusive date range exceeds 90 days is
answered 400 before the lock is touched and before any build or store
write; a request that passes validation with the lock free always releases
the lock after the loop, whatever the per-date outcomes were. -/
theorem C7_backfill_bound :
    (∀ tenantId lo hi a b rbacOk lockFree bo,
       jsDate lo = some a → jsDate hi = some b → a ≤ b → jsStrGt lo hi = false →
       b + 1 - a > MAX_DAYS →
       backfillHandler tenantId lo hi rbacOk lockFree bo = ⟨400, [], [], []⟩) ∧
    (∀ tenantId lo hi bo, tenantId ≠ "" → ¬ hasForbiddenChar tenantId →
       matchesDateRe lo = true → matchesDateRe hi = true → jsStrGt lo hi = false →
       (dateRange lo hi).length ≤ MAX_DAYS →
       (backfillHandler tenantId lo hi true true bo).events.head? =
         some .lockAcquireAttempt ∧
       (backfillHandler tenantId lo hi true true bo).events.getLast? =
         some .lockRelease) := by
  constructor
  · intro tenantId lo hi a b rbacOk lockFree bo ha hb hab hcmp hgt
    by_cases ht : tenantId = "" ∨ hasForbiddenChar tenantId = true
    · simp [backfillHandler, ht]
    · have hlo := jsDate_matches lo a ha
      have hhi := jsDate_matches hi b hb
      have hlen := dateRange_length lo hi a b ha hb hab
      simp [backfillHandler, ht, hlo, hhi, hcmp, hlen, hgt]
  · intro tenantId lo hi bo ht1 ht2 hlo hhi hcmp hle
    have ht : ¬ (tenantId = "" ∨ hasForbiddenChar tenantId = true) :=
      not_or.mpr ⟨ht1, ht2⟩
    have hnle : ¬ (dateRange lo hi).length > MAX_DAYS := by omega
    have hres : (backfillHandler tenantId lo hi true true bo).events =
        [Ev.lockAcquireAttempt] ++
          ((dateRange lo hi).foldl
            (fun (acc : List String × List (String × String) × List Ev) d =>
              match bo d with
              | .ok path =>
                (acc.1 ++ [d], acc.2.1, acc.2.2 ++ [.buildCall d, .storeWrite path])
              | .error e =>
                (acc.1, acc.2.1 ++ [(d, e.source ++ "/" ++ e.reason)],
                 acc.2.2 ++ [.buildCall d])) ([], [], [])).2.2 ++
          [Ev.lockRelease] := by
      simp [backfillHandler, ht, hlo, hhi, hcmp, hnle]
    rw [hres]
    exact ⟨rfl, getLast_append_singleton _ _⟩

/-- Witness for C7 at concrete inputs: 2025-01-01 to 2025-04-01 is a 91-day
inclusive range and is rejected; a 2-day range with one failing date still
ends with the lock release. -/
theorem C7_backfill_bound_witness :
    backfillHandler "t1" "2025-01-01" "2025-04-01" true true
      (fun d => .ok d) = ⟨400, [], [], []⟩ ∧
    (backfillHandler "t1" "2025-01-01" "2025-01-02" true true
      (fun d => if d = "2025-01-01" then .error ⟨"beecomm", "timeout"⟩
                else .ok d)).events.getLast? = some .lockRelease := by
  constructor
  · exact C7_backfill_bound.1 "t1" "2025-01-01" "2025-04-01"
      (toJDN 2025 1 1) (toJDN 2025 4 1) true true (fun d => .ok d)
      (by decide) (by decide) (by decide) (by decide) (by decide)
  · exact (C7_backfill_bound.2 "t1" "2025-01-01" "2025-01-02"
      (fun d => if d = "2025-01-01" then .error ⟨"beecomm", "timeout"⟩
                else .ok d)
      (by decide) (by decide) (by decide) (by decide) (by decide)
      (by decide)).2

theorem notMem_keys_filter (m : RolesMap) (uid : String) :
    uid ∉ (m.filter (fun e => e.1 ≠ uid)).map (fun e => e.1) := by
  intro hmem
  simp only [List.mem_map] at hmem
  obtain ⟨e, he, hfst⟩ := hmem
  have hne := List.of_mem_filter he
  simp only [ne_eq, decide_not, Bool.not_eq_true', decide_eq_false_iff_not] at hne
  exact hne hfst

theorem nodup_keys_filter (m : RolesMap) (p : String × String → Bool)
    (h : (rolesKeys m).Nodup) : ((m.filter p).map (fun e => e.1)).Nodup :=
  List.Nodup.sublist ((List.filter_sublist m).map (fun e => e.1)) h

theorem nodup_keys_setRole (m : RolesMap) (uid r : String)
    (h : (rolesKeys m).Nodup) : (rolesKeys (setRole m uid r)).Nodup := by
  simp only [rolesKeys, setRole, List.map_cons]
  exact List.nodup_cons.mpr ⟨notMem_keys_filter m uid, nodup_keys_filter m _ h⟩

theorem nodup_keys_delRole (m : RolesMap) (uid : String)
    (h : (rolesKeys m).Nodup) : (rolesKeys (delRole m uid)).Nodup :=
  nodup_keys_filter m _ h

theorem owners_nodup (m : RolesMap) (h : (rolesKeys m).Nodup) :
    (owners m).Nodup := by
  have hs : List.Sublist (owners m) (rolesKeys m) := by
    simp only [owners, rolesKeys]
    exact (List.filter_sublist m).map (fun e => e.1)
  exact List.Nodup.sublist hs h

theorem owners_delRole (m : RolesMap) (t : String) :
    owners (delRole m t) = (owners m).filter (fun x => x ≠ t) := by
  induction m with
  | nil => rfl
  | cons e rest ih =>
    by_cases h1 : e.1 = t
    · have hl : delRole (e :: rest) t = delRole rest t := by
        simp [delRole, List.filter_cons, h1]
      by_cases h2 : e.2 = "owner"
      · have hr : owners (e :: rest) = e.1 :: owners rest := by
          simp [owners, List.filter_cons, h2]
        rw [hl, ih, hr, List.filter_cons]
        simp [h1]
      · have hr : owners (e :: rest) = owners rest := by
          simp [owners, List.filter_cons, h2]
        rw [hl, ih, hr]
    · have hl : delRole (e :: rest) t = e :: delRole rest t := by
        simp [delRole, List.filter_cons, h1]
      by_cases h2 : e.2 = "owner"
      · have hl2 : owners (e :: delRole rest t) = e.1 :: owners (delRole rest t) := by
          simp [owners, List.filter_cons, h2]
        have hr : owners (e :: rest) = e.1 :: owners rest := by
          simp [owners, List.filter_cons, h2]
        rw [hl, hl2, ih, hr, List.filter_cons]
        simp [h1]
      · have hl2 : owners (e :: delRole rest t) = owners (delRole rest t) := by
          simp [owners, List.filter_cons, h2]
        have hr : owners (e :: rest) = owners rest := by
          simp [owners, List.filter_cons, h2]
        rw [hl, hl2, ih, hr]

theorem owners_setRole (m : RolesMap) (t rr : String) (h : ¬ rr = "owner") :
    owners (setRole m t rr) = (owners m).filter (fun x => x ≠ t) := by
  have hx : owners (setRole m t rr) = owners (delRole m t) := by
    simp [owners, setRole, delRole, List.filter_cons, h]
  rw [hx, owners_delRole]

theorem owners_setRole_owner (m : RolesMap) (t : String) :
    owners (setRole m t "owner") = t :: (owners m).filter (fun x => x ≠ t) := by
  have hx : owners (setRole m t "owner") = t :: owners (delRole m t) := by
    simp [owners, setRole, delRole, List.filter_cons]
  rw [hx, owners_delRole]

theorem filter_ne_nonempty (l : List String) (t : String) (hnd : l.Nodup)
    (hne : l ≠ []) (hnot : l ≠ [t]) : l.filter (fun x => x ≠ t) ≠ [] := by
  cases l with
  | nil => exact absurd rfl hne
  | cons a rest =>
    by_cases hat : a = t
    · subst hat
      cases rest with
      | nil => exact absurd rfl hnot
      | cons b r2 =>
        have hbna : ¬ b = a := by
          intro hb
          exact (List.nodup_cons.mp hnd).1 (by rw [hb]; exact List.mem_cons_self _ _)
        simp [List.filter_cons, hbna]
    · simp [List.filter_cons, hat]

theorem length_one_head_iff (l : List String) (t : String) :
    (l.length = 1 ∧ l.head? = some t) ↔ l = [t] := by
  cases l with
  | nil => simp
  | cons a rest =>
    cases rest with
    | nil => simp
    | cons b r2 => simp

theorem applyOp_preserves (m : RolesMap) (op : Op)
    (hk : (rolesKeys m).Nodup) (h : owners m ≠ []) :
    owners (applyOp m op) ≠ [] ∧ (rolesKeys (applyOp m op)).Nodup := by
  cases op with
  | bootstrap uid =>
    have habort : bootstrapTx uid (some m) = none :=
      (bootstrapTx_none_iff uid (some m)).mpr (by simpa using h)
    simp only [applyOp, habort]
    exact ⟨h, hk⟩
  | updateRole t r =>
    by_cases hro : r = some "owner"
    · subst hro
      have hred : applyOp m (Op.updateRole t (some "owner")) = setRole m t "owner" := by
        simp [applyOp]
      rw [hred]
      constructor
      · rw [owners_setRole_owner]
        simp
      · exact nodup_keys_setRole m t "owner" hk
    · simp only [applyOp, if_neg hro]
      by_cases hab : (owners m).length = 1 ∧ (owners m).head? = some t
      · have hnone : updateRoleTx t r (some m) = none := by
          simp [updateRoleTx, hab]
        rw [hnone]
        exact ⟨h, hk⟩
      · have hnot : owners m ≠ [t] := fun he =>
          hab ((length_one_head_iff (owners m) t).mpr he)
        have hnd := owners_nodup m hk
        have hfil : (owners m).filter (fun x => x ≠ t) ≠ [] :=
          filter_ne_nonempty (owners m) t hnd h hnot
        cases r with
        | none =>
          have hcommit : updateRoleTx t none (some m) = some (delRole m t) := by
            simp [updateRoleTx, hab]
          rw [hcommit]
          refine ⟨?_, nodup_keys_delRole m t hk⟩
          rw [owners_delRole]
          exact hfil
        | some rr =>
          have hrr : ¬ rr = "owner" := by
            intro hx
            exact hro (by rw [hx])
          have hcommit : updateRoleTx t (some rr) (some m) = some (setRole m t rr) := by
            simp [updateRoleTx, hab]
          rw [hcommit]
          refine ⟨?_, nodup_keys_setRole m t rr hk⟩
          rw [owners_setRole m t rr hrr]
          exact hfil

theorem ownersNonempty_foldl (ops : List Op) :
    ∀ (m : RolesMap), (rolesKeys m).Nodup → owners m ≠ [] →
      owners (ops.foldl applyOp m) ≠ [] := by
  induction ops with
  | nil =>
    intro m _ h
    simpa using h
  | cons op rest ih =>
    intro m hk h
    have hs := applyOp_preserves m op hk h
    simpa [List.foldl_cons] using ih (applyOp m op) hs.2 hs.1

/-- C1: across any sequence of Bootstrap / UpdateRole operations, a
non-empty owner set never becomes empty: an UpdateRole whose new role is
not "owner" aborts (leaving the map unchanged) when the fresh owner set is
exactly the target uid, an UpdateRole to "owner" only adds an owner, and a
Bootstrap against a tenant with an owner aborts. -/
theorem C1_owner_invariant (m : RolesMap) (ops : List Op)
    (hk : (rolesKeys m).Nodup) (h : owners m ≠ []) :
    owners (ops.foldl applyOp m) ≠ [] ∧
    (∀ t r, r ≠ some "owner" → owners m = [t] →
       updateRoleTx t r (some m) = none ∧ applyOp m (.updateRole t r) = m) ∧
    (∀ t, owners m ⊆ owners (applyOp m (.updateRole t (some "owner")))) ∧
    (∀ uid, owners m ⊆ owners (applyOp m (.bootstrap uid))) := by
  refine ⟨ownersNonempty_foldl ops m hk h, ?_, ?_, ?_⟩
  · intro t r hro hsingle
    have hc : (owners m).length = 1 ∧ (owners m).head? = some t :=
      (length_one_head_iff (owners m) t).mpr hsingle
    have hnone : updateRoleTx t r (some m) = none := by
      simp [updateRoleTx, hc]
    refine ⟨hnone, ?_⟩
    simp [applyOp, hro, hnone]
  · intro t
    have hred : applyOp m (Op.updateRole t (some "owner")) = setRole m t "owner" := by
      simp [applyOp]
    rw [hred, owners_setRole_owner]
    intro x hx
    by_cases hxt : x = t
    · subst hxt
      exact List.mem_cons_self _ _
    · exact List.mem_cons_of_mem _ (List.mem_filter.mpr ⟨hx, by simpa using hxt⟩)
  · intro uid
    have habort : bootstrapTx uid (some m) = none :=
      (bootstrapTx_none_iff uid (some m)).mpr (by simpa using h)
    simp [applyOp, habort, List.Subset.refl]

/-- Witness for C1 at concrete inputs: a demotion plus an attempted
last-owner removal leave the owner set non-empty. -/
theorem C1_owner_invariant_witness :
    owners ([Op.updateRole "bob" (some "manager"),
             Op.updateRole "alice" none].foldl applyOp
      [("alice", "owner"), ("bob", "viewer")]) ≠ [] := by
  exact (C1_owner_invariant [("alice", "owner"), ("bob", "viewer")]
    [Op.updateRole "bob" (some "manager"), Op.updateRole "alice" none]
    (by decide) (by decide)).1

end Kissgn
